import Mathlib

set_option maxRecDepth 100000

/-!
Shallow embedding of the zarf package-lifecycle slice: component types and the
included filter (src/types/component.go, src/pkg/packager/filters/included.go),
the pod mutation webhook and deterministic image rewrite (pinned by
src/internal/agent/hooks/pods_test.go), the context logger binding and pterm
handler (src/pkg/logging), and the connect flag overrides (src/cmd/connect.go).
Default field values mirror Go zero values.
-/

/-- Shell models exec.Shell (not in the visible slice). Modelled from the spec:
a per-OS shell selector with windows, linux and darwin entries. -/
structure Shell where
  Windows : String := ""
  Linux : String := ""
  Darwin : String := ""
deriving DecidableEq

/-- Variable models variables.Variable (not in the visible slice). Modelled from
the spec: name, sensitive, autoIndent, pattern, type (raw or file), default and
prompt attributes of a package variable. -/
structure Variable where
  Name : String := ""
  Sensitive : Bool := false
  AutoIndent : Bool := false
  Pattern : String := ""
  VarType : String := ""
  Description : String := ""
  Default : String := ""
  Prompt : Bool := false
deriving DecidableEq

/-- BigBangExtension models extensions.BigBang (not in the visible slice).
Modelled from the spec's ADR example: version, repo, values files, skipFlux and
flux patch files. -/
structure BigBangExtension where
  Version : String := ""
  Repo : String := ""
  ValuesFiles : List String := []
  SkipFlux : Bool := false
  FluxPatchFiles : List String := []
deriving DecidableEq

/-- ZarfComponentExtensions models extensions.ZarfComponentExtensions (not in
the visible slice). Modelled from the spec: extensions extend component
functionality with additional features such as bigbang. -/
structure ZarfComponentExtensions where
  Bigbang : Option BigBangExtension := none
deriving DecidableEq

/-- ZarfComponentOnlyCluster from src/types/component.go. -/
structure ZarfComponentOnlyCluster where
  Architecture : String := ""
  Distros : List String := []
deriving DecidableEq

/-- ZarfComponentOnlyTarget from src/types/component.go. -/
structure ZarfComponentOnlyTarget where
  LocalOS : String := ""
  Cluster : ZarfComponentOnlyCluster := {}
  Flavor : String := ""
deriving DecidableEq

/-- ZarfComponentImport from src/types/component.go. -/
structure ZarfComponentImport where
  Name : String := ""
  Path : String := ""
  URL : String := ""
deriving DecidableEq

/-- ZarfFile from src/types/component.go. -/
structure ZarfFile where
  Source : String := ""
  Shasum : String := ""
  Target : String := ""
  Executable : Bool := false
  Symlinks : List String := []
  ExtractPath : String := ""
deriving DecidableEq

/-- ZarfChartVariable from src/types/component.go. -/
structure ZarfChartVariable where
  Name : String := ""
  Description : String := ""
  Path : String := ""
deriving DecidableEq

/-- ZarfChart from src/types/component.go. -/
structure ZarfChart where
  Name : String := ""
  Version : String := ""
  URL : String := ""
  RepoName : String := ""
  GitPath : String := ""
  LocalPath : String := ""
  Namespace : String := ""
  ReleaseName : String := ""
  NoWait : Bool := false
  ValuesFiles : List String := []
  Variables : List ZarfChartVariable := []
deriving DecidableEq

/-- ZarfManifest from src/types/component.go. -/
structure ZarfManifest where
  Name : String := ""
  Namespace : String := ""
  Files : List String := []
  KustomizeAllowAnyDirectory : Bool := false
  Kustomizations : List String := []
  NoWait : Bool := false
deriving DecidableEq

/-- ZarfContainerTarget from src/types/component.go. -/
structure ZarfContainerTarget where
  Namespace : String := ""
  Selector : String := ""
  Container : String := ""
  Path : String := ""
deriving DecidableEq

/-- ZarfDataInjection from src/types/component.go. -/
structure ZarfDataInjection where
  Source : String := ""
  Target : ZarfContainerTarget := {}
  Compress : Bool := false
deriving DecidableEq

/-- DeprecatedZarfComponentScripts from src/types/component.go. -/
structure DeprecatedZarfComponentScripts where
  ShowOutput : Bool := false
  TimeoutSeconds : Int := 0
  Retry : Bool := false
  Prepare : List String := []
  Before : List String := []
  After : List String := []
deriving DecidableEq

/-- ZarfComponentActionWaitCluster from src/types/component.go. -/
structure ZarfComponentActionWaitCluster where
  Kind : String := ""
  Name : String := ""
  Namespace : String := ""
  Condition : String := ""
deriving DecidableEq

/-- ZarfComponentActionWaitNetwork from src/types/component.go. -/
structure ZarfComponentActionWaitNetwork where
  Protocol : String := ""
  Address : String := ""
  Code : Int := 0
deriving DecidableEq

/-- ZarfComponentActionWait from src/types/component.go. -/
structure ZarfComponentActionWait where
  Cluster : Option ZarfComponentActionWaitCluster := none
  Network : Option ZarfComponentActionWaitNetwork := none
deriving DecidableEq

/-- ZarfComponentActionDefaults from src/types/component.go. -/
structure ZarfComponentActionDefaults where
  Mute : Bool := false
  MaxTotalSeconds : Int := 0
  MaxRetries : Int := 0
  Dir : String := ""
  Env : List String := []
  Shell : Shell := {}
deriving DecidableEq

/-- ZarfComponentAction from src/types/component.go. -/
structure ZarfComponentAction where
  Mute : Option Bool := none
  MaxTotalSeconds : Option Int := none
  MaxRetries : Option Int := none
  Dir : Option String := none
  Env : List String := []
  Cmd : String := ""
  Shell : Option Shell := none
  DeprecatedSetVariable : String := ""
  SetVariables : List Variable := []
  Description : String := ""
  Wait : Option ZarfComponentActionWait := none
deriving DecidableEq

/-- ZarfComponentActionSet from src/types/component.go. -/
structure ZarfComponentActionSet where
  Defaults : ZarfComponentActionDefaults := {}
  Before : List ZarfComponentAction := []
  After : List ZarfComponentAction := []
  OnSuccess : List ZarfComponentAction := []
  OnFailure : List ZarfComponentAction := []
deriving DecidableEq

/-- ZarfComponentActions from src/types/component.go. -/
structure ZarfComponentActions where
  OnCreate : ZarfComponentActionSet := {}
  OnDeploy : ZarfComponentActionSet := {}
  OnRemove : ZarfComponentActionSet := {}
deriving DecidableEq

/-- ZarfComponent from src/types/component.go; Required is Go *bool, a tri-state. -/
structure ZarfComponent where
  Name : String := ""
  Description : String := ""
  Default : Bool := false
  Required : Option Bool := none
  Only : ZarfComponentOnlyTarget := {}
  DeprecatedGroup : String := ""
  DeprecatedCosignKeyPath : String := ""
  Import : ZarfComponentImport := {}
  Manifests : List ZarfManifest := []
  Charts : List ZarfChart := []
  DataInjections : List ZarfDataInjection := []
  Files : List ZarfFile := []
  Images : List String := []
  Repos : List String := []
  Extensions : ZarfComponentExtensions := {}
  DeprecatedScripts : DeprecatedZarfComponentScripts := {}
  Actions : ZarfComponentActions := {}
deriving DecidableEq

/-- RequiresCluster from src/types/component.go: true when any of images,
charts, manifests, repos or data injections is non-empty. -/
def ZarfComponent.RequiresCluster (c : ZarfComponent) : Bool :=
  let hasImages := decide (c.Images.length > 0)
  let hasCharts := decide (c.Charts.length > 0)
  let hasManifests := decide (c.Manifests.length > 0)
  let hasRepos := decide (c.Repos.length > 0)
  let hasDataInjections := decide (c.DataInjections.length > 0)
  if hasImages || hasCharts || hasManifests || hasRepos || hasDataInjections then
    true
  else
    false

/-- IsRequired from src/types/component.go: the dereferenced Required pointer,
or false when the pointer is nil. -/
def ZarfComponent.IsRequired (c : ZarfComponent) : Bool :=
  match c.Required with
  | some b => b
  | none => false

/-- The selection states of the filters package (included.go references the
included, excluded and unknown constants of its package). -/
inductive SelectState where
  | included
  | excluded
  | unknown
deriving DecidableEq

/-- Modelled from the spec: the helper includedOrExcluded of the filters package
is not in the visible slice. Per the spec's included-filter stage, a component is
included when a selector matches its name, excluded when a selector carrying a
leading dash matches its name, and unknown otherwise; exclusion selectors are
checked first so an exclusion wins over an inclusion of the same name. -/
def includedOrExcluded (componentName : String) (requestedComponentNames : List String) : SelectState :=
  if requestedComponentNames.any (fun requested =>
      match requested.toList with
      | '-' :: restChars => restChars == componentName.toList
      | _ => false) then
    SelectState.excluded
  else if requestedComponentNames.any (fun requested => requested == componentName) then
    SelectState.included
  else
    SelectState.unknown

/-- The isPartial test of IncludedFilter.Apply from
src/pkg/packager/filters/included.go: the requested list is non-empty and its
first entry is not the empty string. -/
def isPartialRequest (requestedComponents : List String) : Bool :=
  match requestedComponents with
  | [] => false
  | first :: _ => first != ""

/-- The component loop of IncludedFilter.Apply from
src/pkg/packager/filters/included.go: excluded components are skipped, included
components are appended, and any other (unknown) component is skipped. -/
def includedFilterLoop (isPartial : Bool) (requested : List String) : List ZarfComponent → List ZarfComponent
  | [] => []
  | component :: rest =>
    let selectState := if isPartial then includedOrExcluded component.Name requested else SelectState.included
    if selectState = SelectState.excluded then
      includedFilterLoop isPartial requested rest
    else if selectState = SelectState.included then
      component :: includedFilterLoop isPartial requested rest
    else
      includedFilterLoop isPartial requested rest

/-- IncludedFilter.Apply from src/pkg/packager/filters/included.go (the Go
method always returns a nil error, so the result is the plan list itself). -/
def IncludedFilter.Apply (requestedComponents : List String) (allComponents : List ZarfComponent) : List ZarfComponent :=
  includedFilterLoop (isPartialRequest requestedComponents) requestedComponents allComponents

/-- Scenario component a of spec scenario S4. -/
def componentA : ZarfComponent := { Name := "a" }

/-- Scenario component b of spec scenario S4, with required set to true. -/
def componentB : ZarfComponent := { Name := "b", Required := some true }

/-- Scenario component c of spec scenario S4. -/
def componentC : ZarfComponent := { Name := "c" }

/-- A component with default false, for the no-selector scenario. -/
def componentDefaultFalse : ZarfComponent := { Name := "quiet", Default := false }

/-- A component with default true, for the no-selector scenario. -/
def componentDefaultTrue : ZarfComponent := { Name := "loud", Default := true }



/-- One reflected CRC32 bit step with the IEEE polynomial 0xEDB88320: shift the
register right one bit and fold the polynomial in when the low bit was set. -/
def crc32Step (crc : Nat) : Nat :=
  if crc % 2 == 1 then Nat.xor (crc / 2) 0xEDB88320 else crc / 2

/-- Iterate the CRC32 bit step. -/
def crc32Bits : Nat → Nat → Nat
  | 0, crc => crc
  | n + 1, crc => crc32Bits n (crc32Step crc)

/-- Fold a byte list into the CRC32 register: xor in the byte, then eight bit steps. -/
def crc32Bytes : Nat → List Nat → Nat
  | crc, [] => crc
  | crc, b :: bs => crc32Bytes (crc32Bits 8 (Nat.xor crc b)) bs

/-- Modelled from the spec: the CRC32 checksum (IEEE polynomial, as computed by
Go's hash/crc32 ChecksumIEEE) over a byte list, with the standard initial and
final inversion of the register. -/
def crc32 (bytes : List Nat) : Nat :=
  Nat.xor (crc32Bytes 0xFFFFFFFF bytes) 0xFFFFFFFF

/-- UTF-8 encoding of a single character as a list of byte values. -/
def utf8EncodeChar (c : Char) : List Nat :=
  let n := c.toNat
  if n < 0x80 then [n]
  else if n < 0x800 then [0xC0 + n / 0x40, 0x80 + n % 0x40]
  else if n < 0x10000 then [0xE0 + n / 0x1000, 0x80 + n / 0x40 % 0x40, 0x80 + n % 0x40]
  else [0xF0 + n / 0x40000, 0x80 + n / 0x1000 % 0x40, 0x80 + n / 0x40 % 0x40, 0x80 + n % 0x40]

/-- The UTF-8 bytes of a string. -/
def stringUTF8Bytes (s : String) : List Nat :=
  (s.toList.map utf8EncodeChar).flatten

/-- Split a character list on a separator character; groups keep their order
and do not contain the separator. -/
def splitOnChar (sep : Char) : List Char → List (List Char)
  | [] => [[]]
  | c :: rest =>
    let groups := splitOnChar sep rest
    if c = sep then [] :: groups
    else
      match groups with
      | [] => [[c]]
      | g :: gs => (c :: g) :: gs

/-- Modelled from the spec: the name and tag of an image reference that carries
no explicit registry host and no digest (the shapes exercised by the visible
tests); a missing tag defaults to latest. -/
def imageNameAndTag (ref : String) : String × String :=
  match splitOnChar ':' ref.toList with
  | [nameChars, tagChars] => (String.mk nameChars, String.mk tagChars)
  | _ => (ref, "latest")

/-- Modelled from the spec: the repository path of such a reference; a bare name
without a namespace is placed under the library namespace. -/
def imageRefPath (ref : String) : String :=
  let name := (imageNameAndTag ref).1
  if name.toList.contains '/' then name else "library/" ++ name

/-- Modelled from the spec: the fully-qualified image name of such a reference,
with the default docker.io registry filled in and the tag excluded. -/
def imageRefFullName (ref : String) : String :=
  "docker.io/" ++ imageRefPath ref

/-- Modelled from the spec: transform.ImageTransformHost is not in the visible
slice. It rewrites an image reference to point at the given target host,
appending a zarf tag suffix whose checksum the test vectors of
src/internal/agent/hooks/pods_test.go pin to the CRC32 of the fully-qualified
image name. -/
def ImageTransformHost (targetHost srcReference : String) : String :=
  targetHost ++ "/" ++ imageRefPath srcReference ++ ":" ++ (imageNameAndTag srcReference).2
    ++ "-zarf-" ++ toString (crc32 (stringUTF8Bytes (imageRefFullName srcReference)))



/-- The value carried by a JSON patch operation in the admission response:
an image string, the imagePullSecrets list of secret names, or a labels map. -/
inductive PatchValue where
  | str (s : String)
  | secrets (names : List String)
  | labelMap (entries : List (String × String))
deriving DecidableEq

/-- PatchOperation of the operations package (not in the visible slice):
a JSON patch operation with an op, a path and a value, as marshalled in the
admission response of src/internal/agent/hooks/pods_test.go. -/
structure PatchOperation where
  Op : String
  Path : String
  Value : PatchValue
deriving DecidableEq

/-- ReplacePatchOperation of the operations package: a replace patch. -/
def ReplacePatchOperation (path : String) (value : PatchValue) : PatchOperation :=
  { Op := "replace", Path := path, Value := value }

/-- AddPatchOperation of the operations package: an add patch. -/
def AddPatchOperation (path : String) (value : PatchValue) : PatchOperation :=
  { Op := "add", Path := path, Value := value }

/-- config.ZarfImagePullSecretName, the private-registry pull secret installed
by zarf (pinned by src/internal/agent/hooks/pods_test.go). -/
def ZarfImagePullSecretName : String := "private-registry"

/-- A pod as seen by the mutation webhook: its labels map (none models a nil
Go map) and the images of its init, ephemeral and regular containers. -/
structure Pod where
  Labels : Option (List (String × String)) := none
  InitContainers : List String := []
  EphemeralContainers : List String := []
  Containers : List String := []
  ImagePullSecrets : List String := []
deriving DecidableEq

/-- The admission outcome: allowed plus the ordered JSON patch list. -/
structure PodAdmissionResult where
  Allowed : Bool
  PatchOps : List PatchOperation
deriving DecidableEq

/-- Whether the pod already carries the label zarf-agent=patched; a nil labels
map carries no labels (a Go nil-map lookup yields the empty string). -/
def podHasPatchedLabel (pod : Pod) : Bool :=
  match pod.Labels with
  | none => false
  | some entries => entries.lookup "zarf-agent" == some "patched"

/-- Modelled from the spec: the label patch of the pod mutation hook (not in
the visible slice). Per the test vectors, a pod without a labels map gets an
add of the whole labels map, any other pod a replace of the single label path. -/
def getLabelPatch (currLabels : Option (List (String × String))) : PatchOperation :=
  match currLabels with
  | none => AddPatchOperation "/metadata/labels" (PatchValue.labelMap [("zarf-agent", "patched")])
  | some _ => ReplacePatchOperation "/metadata/labels/zarf-agent" (PatchValue.str "patched")

/-- One replace patch per container image, at basePath/index/image, rewriting
the image through ImageTransformHost. -/
def imagePatches (registryAddress basePath : String) : Nat → List String → List PatchOperation
  | _, [] => []
  | idx, image :: rest =>
    ReplacePatchOperation (basePath ++ toString idx ++ "/image")
        (PatchValue.str (ImageTransformHost registryAddress image))
      :: imagePatches registryAddress basePath (idx + 1) rest

/-- Modelled from the spec: the pod mutation hook of the agent (not in the
visible slice). An already patched pod gets no patches; otherwise the response
replaces imagePullSecrets with the private-registry secret, rewrites each init,
ephemeral and regular container image through the registry, and adds or sets
the zarf-agent=patched label, in that fixed order (pinned by
src/internal/agent/hooks/pods_test.go). -/
def mutatePod (registryAddress : String) (pod : Pod) : PodAdmissionResult :=
  if podHasPatchedLabel pod then
    { Allowed := true, PatchOps := [] }
  else
    { Allowed := true,
      PatchOps :=
        ReplacePatchOperation "/spec/imagePullSecrets" (PatchValue.secrets [ZarfImagePullSecretName])
          :: (imagePatches registryAddress "/spec/initContainers/" 0 pod.InitContainers
            ++ imagePatches registryAddress "/spec/ephemeralContainers/" 0 pod.EphemeralContainers
            ++ imagePatches registryAddress "/spec/containers/" 0 pod.Containers
            ++ [getLabelPatch pod.Labels]) }

/-- Set a key in an association list, replacing the first binding or appending. -/
def setAssoc : List (String × String) → String → String → List (String × String)
  | [], key, value => [(key, value)]
  | (k, v) :: rest, key, value =>
    if k = key then (key, value) :: rest else (k, v) :: setAssoc rest key value

/-- The labels map after the mutation's label patch is applied. -/
def setPatchedLabel (currLabels : Option (List (String × String))) : Option (List (String × String)) :=
  match currLabels with
  | none => some [("zarf-agent", "patched")]
  | some entries => some (setAssoc entries "zarf-agent" "patched")

/-- The pod obtained by applying the mutation's patch list to the pod: the
identity for an already patched pod, otherwise the pull secret, the rewritten
container images and the patched label. -/
def applyPodPatch (registryAddress : String) (pod : Pod) : Pod :=
  if podHasPatchedLabel pod then pod
  else
    { Labels := setPatchedLabel pod.Labels,
      InitContainers := pod.InitContainers.map (ImageTransformHost registryAddress),
      EphemeralContainers := pod.EphemeralContainers.map (ImageTransformHost registryAddress),
      Containers := pod.Containers.map (ImageTransformHost registryAddress),
      ImagePullSecrets := [ZarfImagePullSecretName] }



/-- The keys a Go context value chain can carry: the unexported contextKey of
src/pkg/logging/logging.go, or any key of another package. -/
inductive ContextKey where
  | loggerKey
  | otherKey (id : Nat)
deriving DecidableEq

/-- A logger as stored in the context: the discard logger built by
FromContextOrDiscard (slog.New over a JSON handler writing to io.Discard), or
any other logger identified abstractly. -/
inductive SlogLogger where
  | discard
  | withHandler (handlerId : Nat)
deriving DecidableEq

/-- A value stored in a context: a logger (the only value the logging package
stores under its key) or any value of another package. -/
inductive ContextValue where
  | loggerVal (log : SlogLogger)
  | otherVal (id : Nat)
deriving DecidableEq

/-- A Go context modelled as its chain of WithValue entries, most recent first
(context.Value returns the most recently added value for a key). -/
abbrev GoContext : Type := List (ContextKey × ContextValue)

/-- context.Value lookup: the first entry of the chain with the given key. -/
def contextValue (ctx : GoContext) (key : ContextKey) : Option ContextValue :=
  ctx.lookup key

/-- NewContext from src/pkg/logging/logging.go: context.WithValue of the
logger under the package's contextKey. -/
def NewContext (ctx : GoContext) (log : SlogLogger) : GoContext :=
  (ContextKey.loggerKey, ContextValue.loggerVal log) :: ctx

/-- FromContextOrDiscard from src/pkg/logging/logging.go: the stored logger; a
discard logger when the context holds none; the should-never-happen panic on a
non-logger value under the key is modelled as the error branch. -/
def FromContextOrDiscard (ctx : GoContext) : Except String SlogLogger :=
  match contextValue ctx ContextKey.loggerKey with
  | none => Except.ok SlogLogger.discard
  | some (ContextValue.loggerVal log) => Except.ok log
  | some (ContextValue.otherVal _) => Except.error "unexpected logger type"

/-- The calls into the message package made by the pterm handler. -/
inductive MessageCall where
  | debugMsg (s : String)
  | infoMsg (s : String)
  | warnMsg (s : String)
  | errorMsg (s : String)
deriving DecidableEq

/-- slog.LevelDebug. -/
def LevelDebug : Int := -4

/-- slog.LevelInfo. -/
def LevelInfo : Int := 0

/-- slog.LevelWarn. -/
def LevelWarn : Int := 4

/-- slog.LevelError. -/
def LevelError : Int := 8

/-- A slog record: its level (slog levels are integers) and message. -/
structure SlogRecord where
  Level : Int := 0
  Message : String := ""
deriving DecidableEq

/-- PtermHandler from src/pkg/logging/handler.go: attrs and group state. An
slog attr is modelled as a key-value pair. -/
structure PtermHandler where
  attrs : List (String × String) := []
  group : String := ""
deriving DecidableEq

/-- NewPtermHandler from src/pkg/logging/handler.go. -/
def NewPtermHandler : PtermHandler := {}

/-- Enabled from src/pkg/logging/handler.go: true for every context and level. -/
def PtermHandler.Enabled (_h : PtermHandler) (_ctx : GoContext) (_level : Int) : Bool :=
  true

/-- Handle from src/pkg/logging/handler.go: the switch on the record level
routes debug, info and warn to the matching message surface and error to the
warning surface; any other level emits nothing; the returned error is always
nil (modelled as none). -/
def PtermHandler.Handle (_h : PtermHandler) (_ctx : GoContext) (r : SlogRecord) : List MessageCall × Option String :=
  (if r.Level = LevelDebug then [MessageCall.debugMsg r.Message]
   else if r.Level = LevelInfo then [MessageCall.infoMsg r.Message]
   else if r.Level = LevelWarn then [MessageCall.warnMsg r.Message]
   else if r.Level = LevelError then [MessageCall.warnMsg r.Message]
   else [], none)

/-- WithAttrs from src/pkg/logging/handler.go. -/
def PtermHandler.WithAttrs (h : PtermHandler) (attrs : List (String × String)) : PtermHandler :=
  { attrs := h.attrs ++ attrs, group := h.group }

/-- WithGroup from src/pkg/logging/handler.go. -/
def PtermHandler.WithGroup (h : PtermHandler) (name : String) : PtermHandler :=
  { attrs := h.attrs, group := name }

/-- cluster.SvcResource (not in the visible slice). Modelled from the spec: the
service resource kind of a tunnel target. -/
def SvcResource : String := "svc"

/-- cluster.ZarfNamespaceName (not in the visible slice). Modelled from the
spec: the zarf namespace. -/
def ZarfNamespaceName : String := "zarf"

/-- cluster.TunnelInfo: resource kind, resource name or selector, namespace,
local port and remote port (spec data model; ports are Go ints). -/
structure TunnelInfo where
  ResourceType : String := ""
  ResourceName : String := ""
  Namespace : String := ""
  LocalPort : Int := 0
  RemotePort : Int := 0
deriving DecidableEq

/-- The flag-override block of the connect command (src/cmd/connect.go lines
50 to 64): each field of the target-derived tunnel info is overridden by the
corresponding flag value only when that value differs from the flag's
registered default (type svc, name empty, namespace zarf, ports zero). -/
def applyConnectFlagOverrides (zt ti : TunnelInfo) : TunnelInfo :=
  let t1 := if zt.ResourceType ≠ SvcResource then { ti with ResourceType := zt.ResourceType } else ti
  let t2 := if zt.ResourceName ≠ "" then { t1 with ResourceName := zt.ResourceName } else t1
  let t3 := if zt.Namespace ≠ ZarfNamespaceName then { t2 with Namespace := zt.Namespace } else t2
  let t4 := if zt.LocalPort ≠ 0 then { t3 with LocalPort := zt.LocalPort } else t3
  let t5 := if zt.RemotePort ≠ 0 then { t4 with RemotePort := zt.RemotePort } else t4
  t5

theorem includedFilterLoop_not_partial (requested : List String) (comps : List ZarfComponent) :
    includedFilterLoop false requested comps = comps := by
  induction comps with
  | nil => rfl
  | cons c rest ih => simp [includedFilterLoop, ih]

theorem includedFilterLoop_partial (requested : List String) (comps : List ZarfComponent) :
    includedFilterLoop true requested comps
      = comps.filter (fun c => includedOrExcluded c.Name requested == SelectState.included) := by
  induction comps with
  | nil => rfl
  | cons c rest ih =>
    cases h : includedOrExcluded c.Name requested <;>
      simp [includedFilterLoop, List.filter, h, ih] <;> rfl

/-- C1 (amended): when any include selector is present, the included filter
keeps exactly the components whose name matches an include selector; a
component that matches no selector is dropped even when it has required=true,
so the plan for components a, b(required), c with selector a is just a. -/
theorem included_filter_partial_drops_unknown_required
    (requested : List String) (comps : List ZarfComponent)
    (hsel : isPartialRequest requested = true) :
    IncludedFilter.Apply requested comps
        = comps.filter (fun c => includedOrExcluded c.Name requested == SelectState.included)
    ∧ (IncludedFilter.Apply ["a"] [componentA, componentB, componentC]).map ZarfComponent.Name
        = ["a"] := by
  constructor
  · unfold IncludedFilter.Apply
    rw [hsel]
    exact includedFilterLoop_partial requested comps
  · decide

theorem included_filter_partial_drops_unknown_required_witness :
    IncludedFilter.Apply ["a"] [componentA, componentB, componentC]
        = [componentA, componentB, componentC].filter
            (fun c => includedOrExcluded c.Name ["a"] == SelectState.included) :=
  (included_filter_partial_drops_unknown_required ["a"] [componentA, componentB, componentC]
    (by decide)).1

/-- C1 counterexample: in the S4 scenario the unknown required component b is
dropped, not pulled in, so the plan is a alone rather than a, b. -/
theorem included_filter_required_not_pulled_in_counterexample :
    componentB.IsRequired = true
    ∧ includedOrExcluded componentB.Name ["a"] = SelectState.unknown
    ∧ (IncludedFilter.Apply ["a"] [componentA, componentB, componentC]).map ZarfComponent.Name
        = ["a"]
    ∧ ¬ (IncludedFilter.Apply ["a"] [componentA, componentB, componentC]).map ZarfComponent.Name
        = ["a", "b"] := by decide

/-- C2 (amended): with no selector the included filter keeps every component
unchanged, regardless of its declared default field. -/
theorem included_filter_no_selector_keeps_all (comps : List ZarfComponent) :
    IncludedFilter.Apply [] comps = comps :=
  includedFilterLoop_not_partial [] comps

theorem included_filter_no_selector_keeps_all_witness :
    IncludedFilter.Apply [] [componentDefaultFalse, componentDefaultTrue]
      = [componentDefaultFalse, componentDefaultTrue] :=
  included_filter_no_selector_keeps_all [componentDefaultFalse, componentDefaultTrue]

/-- C2 counterexample: with no selector, a component with default=false is
still included in the plan, so the declared default is not honoured. -/
theorem included_filter_default_false_still_included_counterexample :
    componentDefaultFalse.Default = false
    ∧ IncludedFilter.Apply [] [componentDefaultFalse, componentDefaultTrue]
        = [componentDefaultFalse, componentDefaultTrue]
    ∧ ¬ IncludedFilter.Apply [] [componentDefaultFalse, componentDefaultTrue]
        = [componentDefaultTrue] := by decide

/-- C6: a component requires a cluster connection iff at least one of its
images, charts, manifests, repos or dataInjections lists is non-empty; in
particular files, actions and extensions alone never make it true. -/
theorem requires_cluster_iff_nonempty_assets (c : ZarfComponent) :
    c.RequiresCluster = true ↔
      (0 < c.Images.length ∨ 0 < c.Charts.length ∨ 0 < c.Manifests.length
        ∨ 0 < c.Repos.length ∨ 0 < c.DataInjections.length) := by
  simp [ZarfComponent.RequiresCluster, or_assoc]

/-- A component carrying only an image list, for the cluster-connection check. -/
def componentWithImage : ZarfComponent := { Name := "img", Images := ["nginx"] }

/-- A component carrying only files, actions and extensions, for the
cluster-connection check. -/
def componentFilesOnly : ZarfComponent :=
  { Name := "files-only",
    Files := [{ Source := "f", Target := "t" }],
    Extensions := { Bigbang := some {} },
    Actions := { OnDeploy := { Before := [{ Cmd := "echo hello" }] } } }

theorem requires_cluster_iff_nonempty_assets_witness :
    componentWithImage.RequiresCluster = true
    ∧ componentFilesOnly.RequiresCluster = false := by
  constructor
  · exact (requires_cluster_iff_nonempty_assets componentWithImage).mpr (Or.inl (by decide))
  · have h : ¬ (componentFilesOnly.RequiresCluster = true) := by
      rw [requires_cluster_iff_nonempty_assets componentFilesOnly]
      decide
    simpa using h

theorem lookup_setAssoc (entries : List (String × String)) (key value : String) :
    (setAssoc entries key value).lookup key = some value := by
  induction entries with
  | nil => simp [setAssoc, List.lookup]
  | cons p rest ih =>
    obtain ⟨k, v⟩ := p
    by_cases hk : k = key
    · simp [setAssoc, hk, List.lookup]
    · simp [setAssoc, hk, List.lookup, ih, beq_false_of_ne (Ne.symm hk)]

theorem podHasPatchedLabel_applyPodPatch (registryAddress : String) (pod : Pod) :
    podHasPatchedLabel (applyPodPatch registryAddress pod) = true := by
  unfold applyPodPatch
  by_cases hp : podHasPatchedLabel pod = true
  · simp [hp]
  · simp only [hp, if_false, Bool.false_eq_true]
    unfold podHasPatchedLabel setPatchedLabel
    cases pod.Labels with
    | none => simp [List.lookup]
    | some entries => simp [lookup_setAssoc]

theorem mutatePod_of_patched (registryAddress : String) (pod : Pod)
    (hp : podHasPatchedLabel pod = true) :
    mutatePod registryAddress pod = { Allowed := true, PatchOps := [] } := by
  simp [mutatePod, hp]

theorem applyPodPatch_of_patched (registryAddress : String) (pod : Pod)
    (hp : podHasPatchedLabel pod = true) :
    applyPodPatch registryAddress pod = pod := by
  simp [applyPodPatch, hp]

/-- C3: for every labels map not carrying zarf-agent=patched, admitting the S1
pod (init busybox, ephemeral alpine, container nginx, registry
127.0.0.1:31999) yields allowed with exactly the five patch operations in the
fixed order: imagePullSecrets, initContainers, ephemeralContainers,
containers, label. -/
theorem pod_mutation_labeled_pod_patch_vector (labels : List (String × String))
    (h : labels.lookup "zarf-agent" ≠ some "patched") :
    mutatePod "127.0.0.1:31999"
        { Labels := some labels,
          InitContainers := ["busybox"],
          EphemeralContainers := ["alpine"],
          Containers := ["nginx"] }
      = { Allowed := true,
          PatchOps :=
            [ReplacePatchOperation "/spec/imagePullSecrets" (PatchValue.secrets ["private-registry"]),
             ReplacePatchOperation "/spec/initContainers/0/image"
               (PatchValue.str "127.0.0.1:31999/library/busybox:latest-zarf-2140033595"),
             ReplacePatchOperation "/spec/ephemeralContainers/0/image"
               (PatchValue.str "127.0.0.1:31999/library/alpine:latest-zarf-1117969859"),
             ReplacePatchOperation "/spec/containers/0/image"
               (PatchValue.str "127.0.0.1:31999/library/nginx:latest-zarf-3793515731"),
             ReplacePatchOperation "/metadata/labels/zarf-agent" (PatchValue.str "patched")] } := by
  have hpatched : podHasPatchedLabel
      { Labels := some labels,
        InitContainers := ["busybox"],
        EphemeralContainers := ["alpine"],
        Containers := ["nginx"] } = false := by
    simpa [podHasPatchedLabel] using beq_eq_false_iff_ne.mpr h
  simp only [mutatePod, hpatched, Bool.false_eq_true, if_false]
  rfl

theorem pod_mutation_labeled_pod_patch_vector_witness :
    mutatePod "127.0.0.1:31999"
        { Labels := some [("should-be", "mutated")],
          InitContainers := ["busybox"],
          EphemeralContainers := ["alpine"],
          Containers := ["nginx"] }
      = { Allowed := true,
          PatchOps :=
            [ReplacePatchOperation "/spec/imagePullSecrets" (PatchValue.secrets ["private-registry"]),
             ReplacePatchOperation "/spec/initContainers/0/image"
               (PatchValue.str "127.0.0.1:31999/library/busybox:latest-zarf-2140033595"),
             ReplacePatchOperation "/spec/ephemeralContainers/0/image"
               (PatchValue.str "127.0.0.1:31999/library/alpine:latest-zarf-1117969859"),
             ReplacePatchOperation "/spec/containers/0/image"
               (PatchValue.str "127.0.0.1:31999/library/nginx:latest-zarf-3793515731"),
             ReplacePatchOperation "/metadata/labels/zarf-agent" (PatchValue.str "patched")] } :=
  pod_mutation_labeled_pod_patch_vector [("should-be", "mutated")] (by decide)

/-- C4: the webhook is idempotent: an already patched pod (label
zarf-agent=patched) yields allowed with an empty patch, the pod produced by
applying the mutation is in that state, and applying the mutation twice equals
applying it once. -/
theorem pod_mutation_webhook_idempotent (registryAddress : String) (pod : Pod) :
    (podHasPatchedLabel pod = true →
        mutatePod registryAddress pod = { Allowed := true, PatchOps := [] })
    ∧ mutatePod registryAddress (applyPodPatch registryAddress pod)
        = { Allowed := true, PatchOps := [] }
    ∧ applyPodPatch registryAddress (applyPodPatch registryAddress pod)
        = applyPodPatch registryAddress pod := by
  refine ⟨mutatePod_of_patched registryAddress pod, ?_, ?_⟩
  · exact mutatePod_of_patched registryAddress _
      (podHasPatchedLabel_applyPodPatch registryAddress pod)
  · exact applyPodPatch_of_patched registryAddress _
      (podHasPatchedLabel_applyPodPatch registryAddress pod)

/-- The already patched pod of spec scenario S2. -/
def patchedPodExample : Pod :=
  { Labels := some [("zarf-agent", "patched")], Containers := ["nginx"] }

/-- The not yet patched pod of spec scenario S1. -/
def unpatchedPodExample : Pod :=
  { Labels := some [("should-be", "mutated")],
    InitContainers := ["busybox"],
    EphemeralContainers := ["alpine"],
    Containers := ["nginx"] }

theorem pod_mutation_webhook_idempotent_witness :
    mutatePod "127.0.0.1:31999" patchedPodExample = { Allowed := true, PatchOps := [] }
    ∧ applyPodPatch "127.0.0.1:31999" (applyPodPatch "127.0.0.1:31999" unpatchedPodExample)
        = applyPodPatch "127.0.0.1:31999" unpatchedPodExample :=
  ⟨(pod_mutation_webhook_idempotent "127.0.0.1:31999" patchedPodExample).1 (by decide),
   (pod_mutation_webhook_idempotent "127.0.0.1:31999" unpatchedPodExample).2.2⟩

/-- C5: a pod with a nil labels map does not error: the S3 pod gets the
imagePullSecrets replace, the nginx image rewrite and an add of the whole
/metadata/labels map (not a replace of the single label path); and for every
nil-labels pod the admission is allowed and ends with that add operation. -/
theorem pod_mutation_nil_labels_add_patch (init eph conts : List String) :
    mutatePod "127.0.0.1:31999" { Labels := none, Containers := ["nginx"] }
      = { Allowed := true,
          PatchOps :=
            [ReplacePatchOperation "/spec/imagePullSecrets" (PatchValue.secrets ["private-registry"]),
             ReplacePatchOperation "/spec/containers/0/image"
               (PatchValue.str "127.0.0.1:31999/library/nginx:latest-zarf-3793515731"),
             AddPatchOperation "/metadata/labels" (PatchValue.labelMap [("zarf-agent", "patched")])] }
    ∧ (mutatePod "127.0.0.1:31999"
        { Labels := none, InitContainers := init, EphemeralContainers := eph,
          Containers := conts }).Allowed = true
    ∧ (mutatePod "127.0.0.1:31999"
        { Labels := none, InitContainers := init, EphemeralContainers := eph,
          Containers := conts }).PatchOps.getLast?
        = some (AddPatchOperation "/metadata/labels"
            (PatchValue.labelMap [("zarf-agent", "patched")])) := by
  refine ⟨by decide, by simp [mutatePod, podHasPatchedLabel], ?_⟩
  simp only [mutatePod, podHasPatchedLabel, Bool.false_eq_true, if_false, getLabelPatch]
  rw [← List.cons_append, List.getLast?_concat]

theorem pod_mutation_nil_labels_add_patch_witness :
    (mutatePod "127.0.0.1:31999"
        { Labels := none, Containers := ["nginx"] }).PatchOps.getLast?
      = some (AddPatchOperation "/metadata/labels"
          (PatchValue.labelMap [("zarf-agent", "patched")])) :=
  (pod_mutation_nil_labels_add_patch [] [] ["nginx"]).2.2

/-- C7 counterexample: the tag checksum of the rewritten nginx reference is
3793515731, the CRC32 of the fully-qualified name docker.io/library/nginx,
while the CRC32 over the UTF-8 bytes of the original reference nginx itself is
2759310851, so the rewritten reference does not carry the CRC32 of the
original reference. -/
theorem image_rewrite_crc_of_original_ref_counterexample :
    crc32 (stringUTF8Bytes "nginx") = 2759310851
    ∧ crc32 (stringUTF8Bytes "docker.io/library/nginx") = 3793515731
    ∧ ImageTransformHost "127.0.0.1:31999" "nginx"
        = "127.0.0.1:31999/library/nginx:latest-zarf-3793515731"
    ∧ ¬ ImageTransformHost "127.0.0.1:31999" "nginx"
        = "127.0.0.1:31999/library/nginx:latest-zarf-"
            ++ toString (crc32 (stringUTF8Bytes "nginx")) := by decide

/-- C7 (amended): the image rewrite is a pure function of the registry address
and the original reference, of the form
registry/path:tag-zarf-crc32(fully-qualified name), where the CRC32 (IEEE) is
over the UTF-8 bytes of the fully-qualified image name (default registry and
namespace filled in, tag excluded); nginx, busybox and alpine map to the
pinned test vectors. -/
theorem image_rewrite_deterministic_crc_of_full_name :
    (∀ targetHost srcReference : String,
      ImageTransformHost targetHost srcReference
        = targetHost ++ "/" ++ imageRefPath srcReference ++ ":"
            ++ (imageNameAndTag srcReference).2 ++ "-zarf-"
            ++ toString (crc32 (stringUTF8Bytes (imageRefFullName srcReference))))
    ∧ ImageTransformHost "127.0.0.1:31999" "nginx"
        = "127.0.0.1:31999/library/nginx:latest-zarf-3793515731"
    ∧ ImageTransformHost "127.0.0.1:31999" "busybox"
        = "127.0.0.1:31999/library/busybox:latest-zarf-2140033595"
    ∧ ImageTransformHost "127.0.0.1:31999" "alpine"
        = "127.0.0.1:31999/library/alpine:latest-zarf-1117969859"
    ∧ crc32 (stringUTF8Bytes (imageRefFullName "nginx")) = 3793515731 :=
  ⟨fun _ _ => rfl, by decide, by decide, by decide, by decide⟩

theorem image_rewrite_deterministic_crc_of_full_name_witness :
    ImageTransformHost "10.0.0.5:5000" "busybox"
      = "10.0.0.5:5000" ++ "/" ++ imageRefPath "busybox" ++ ":"
          ++ (imageNameAndTag "busybox").2 ++ "-zarf-"
          ++ toString (crc32 (stringUTF8Bytes (imageRefFullName "busybox"))) :=
  image_rewrite_deterministic_crc_of_full_name.1 "10.0.0.5:5000" "busybox"

theorem contextValue_none_of_no_logger_key (ctx : GoContext)
    (h : ∀ entry ∈ ctx, entry.1 ≠ ContextKey.loggerKey) :
    contextValue ctx ContextKey.loggerKey = none := by
  induction ctx with
  | nil => rfl
  | cons e rest ih =>
    obtain ⟨k, v⟩ := e
    have hk : k ≠ ContextKey.loggerKey := h (k, v) (by simp)
    have hrest : ∀ entry ∈ rest, entry.1 ≠ ContextKey.loggerKey :=
      fun entry he => h entry (by simp [he])
    simpa [contextValue, List.lookup, beq_false_of_ne (Ne.symm hk)] using ih hrest

/-- C8: the context logger binding round-trips (reading the context produced by
NewContext yields exactly the stored logger) and is total on contexts that
never stored a logger, where it yields the discard logger rather than a nil
logger or an error. -/
theorem logger_context_round_trip_and_discard :
    (∀ (ctx : GoContext) (log : SlogLogger),
      FromContextOrDiscard (NewContext ctx log) = Except.ok log)
    ∧ (∀ ctx : GoContext, (∀ entry ∈ ctx, entry.1 ≠ ContextKey.loggerKey) →
        FromContextOrDiscard ctx = Except.ok SlogLogger.discard) := by
  constructor
  · intro ctx log
    simp [FromContextOrDiscard, contextValue, NewContext, List.lookup]
  · intro ctx h
    simp [FromContextOrDiscard, contextValue_none_of_no_logger_key ctx h]

theorem logger_context_round_trip_and_discard_witness :
    FromContextOrDiscard (NewContext [] (SlogLogger.withHandler 3))
        = Except.ok (SlogLogger.withHandler 3)
    ∧ FromContextOrDiscard [(ContextKey.otherKey 1, ContextValue.otherVal 2)]
        = Except.ok SlogLogger.discard :=
  ⟨logger_context_round_trip_and_discard.1 [] (SlogLogger.withHandler 3),
   logger_context_round_trip_and_discard.2 [(ContextKey.otherKey 1, ContextValue.otherVal 2)]
     (by decide)⟩

/-- C9: each field of the connect tunnel info is overridden by its flag exactly
when the flag value differs from the registered default (type svc, name empty,
namespace zarf, ports zero), and no flag touches any other field; in
particular an explicit namespace equal to the default or a zero local port
leaves the target-derived value in place. -/
theorem connect_flag_default_values_do_not_override (zt ti : TunnelInfo) :
    (applyConnectFlagOverrides zt ti).ResourceType
        = (if zt.ResourceType ≠ SvcResource then zt.ResourceType else ti.ResourceType)
    ∧ (applyConnectFlagOverrides zt ti).ResourceName
        = (if zt.ResourceName ≠ "" then zt.ResourceName else ti.ResourceName)
    ∧ (applyConnectFlagOverrides zt ti).Namespace
        = (if zt.Namespace ≠ ZarfNamespaceName then zt.Namespace else ti.Namespace)
    ∧ (applyConnectFlagOverrides zt ti).LocalPort
        = (if zt.LocalPort ≠ 0 then zt.LocalPort else ti.LocalPort)
    ∧ (applyConnectFlagOverrides zt ti).RemotePort
        = (if zt.RemotePort ≠ 0 then zt.RemotePort else ti.RemotePort) := by
  unfold applyConnectFlagOverrides
  refine ⟨?_, ?_, ?_, ?_, ?_⟩ <;> split_ifs <;> simp_all

/-- The connect flags at their registered defaults. -/
def defaultConnectFlags : TunnelInfo :=
  { ResourceType := SvcResource, ResourceName := "", Namespace := ZarfNamespaceName,
    LocalPort := 0, RemotePort := 0 }

/-- A target-derived tunnel info, as produced for a named connect target. -/
def tunnelInfoExample : TunnelInfo :=
  { ResourceType := "svc", ResourceName := "zarf-docker-registry", Namespace := "zarf",
    LocalPort := 31999, RemotePort := 5000 }

theorem connect_flag_default_values_do_not_override_witness :
    (applyConnectFlagOverrides defaultConnectFlags tunnelInfoExample).Namespace = "zarf"
    ∧ (applyConnectFlagOverrides defaultConnectFlags tunnelInfoExample).LocalPort = 31999 := by
  have h := connect_flag_default_values_do_not_override defaultConnectFlags tunnelInfoExample
  exact ⟨by simpa [defaultConnectFlags, tunnelInfoExample, ZarfNamespaceName] using h.2.2.1,
         by simpa [defaultConnectFlags, tunnelInfoExample] using h.2.2.2.1⟩

/-- C10: the pterm handler enables every level, returns no error for any
record, routes an error-level record to the warning surface exactly like a
warn-level record, and never emits through the error surface. -/
theorem pterm_handler_total_and_error_downgraded :
    (∀ (h : PtermHandler) (ctx : GoContext) (level : Int), h.Enabled ctx level = true)
    ∧ (∀ (h : PtermHandler) (ctx : GoContext) (r : SlogRecord), (h.Handle ctx r).2 = none)
    ∧ (∀ (h : PtermHandler) (ctx : GoContext) (m : String),
        (h.Handle ctx { Level := LevelError, Message := m }).1 = [MessageCall.warnMsg m]
        ∧ (h.Handle ctx { Level := LevelWarn, Message := m }).1 = [MessageCall.warnMsg m])
    ∧ (∀ (h : PtermHandler) (ctx : GoContext) (r : SlogRecord) (s : String),
        MessageCall.errorMsg s ∉ (h.Handle ctx r).1) := by
  refine ⟨fun _ _ _ => rfl, fun _ _ _ => rfl, fun _ _ m => ⟨by rfl, by rfl⟩, ?_⟩
  intro h ctx r s
  unfold PtermHandler.Handle
  split_ifs <;> simp

theorem pterm_handler_total_and_error_downgraded_witness :
    NewPtermHandler.Enabled [] LevelError = true
    ∧ (NewPtermHandler.Handle [] { Level := LevelError, Message := "boom" }).2 = none
    ∧ (NewPtermHandler.Handle [] { Level := LevelError, Message := "boom" }).1
        = [MessageCall.warnMsg "boom"] :=
  ⟨pterm_handler_total_and_error_downgraded.1 NewPtermHandler [] LevelError,
   pterm_handler_total_and_error_downgraded.2.1 NewPtermHandler []
     { Level := LevelError, Message := "boom" },
   (pterm_handler_total_and_error_downgraded.2.2.1 NewPtermHandler [] "boom").1⟩
